import Mathlib

/-!
# Verification of the gRPC health-check tool

A shallow embedding of `src/grpc_healthcheck.py` (the probe `check_health`
and the CLI entry point `main`). The network and the gRPC runtime are the
environment: a run is parameterised by a function `Net` giving, for each
(target, service) pair, the outcome of the single `stub.Check` call.
Printed lines, channel open/close events and the process exit code are
made explicit in the result records, so that the observable behavior of a
run is a pure value.

Python's `float` timeout influences the behavior modelled here only through
its textual interpolation into messages (its effect on whether the call
times out is part of the environment `Net`), so it is carried as its
decimal rendering, a `String`.
-/

namespace GrpcHealthcheck

/-- The serving-status enum of `grpc.health.v1.HealthCheckResponse.ServingStatus`. -/
inductive ServingStatus where
  | UNKNOWN
  | SERVING
  | NOT_SERVING
  | SERVICE_UNKNOWN
deriving DecidableEq

/-- `HealthCheckResponse.ServingStatus.Name(status)` as used at line 100. -/
def ServingStatus.name : ServingStatus → String
  | .UNKNOWN => "UNKNOWN"
  | .SERVING => "SERVING"
  | .NOT_SERVING => "NOT_SERVING"
  | .SERVICE_UNKNOWN => "SERVICE_UNKNOWN"

/-- `grpc.health.v1.HealthCheckRequest`: a single `service` string field. -/
structure HealthCheckRequest where
  service : String
deriving DecidableEq

/-- `grpc.health.v1.HealthCheckResponse`: a single `status` field. -/
structure HealthCheckResponse where
  status : ServingStatus
deriving DecidableEq

/-- The gRPC status codes (`grpc.StatusCode`). -/
inductive StatusCode where
  | OK
  | CANCELLED
  | UNKNOWN
  | INVALID_ARGUMENT
  | DEADLINE_EXCEEDED
  | NOT_FOUND
  | ALREADY_EXISTS
  | PERMISSION_DENIED
  | RESOURCE_EXHAUSTED
  | FAILED_PRECONDITION
  | ABORTED
  | OUT_OF_RANGE
  | UNIMPLEMENTED
  | INTERNAL
  | UNAVAILABLE
  | DATA_LOSS
  | UNAUTHENTICATED
deriving DecidableEq

/-- `status_code.name` of a `grpc.StatusCode` member. -/
def StatusCode.name : StatusCode → String
  | .OK => "OK"
  | .CANCELLED => "CANCELLED"
  | .UNKNOWN => "UNKNOWN"
  | .INVALID_ARGUMENT => "INVALID_ARGUMENT"
  | .DEADLINE_EXCEEDED => "DEADLINE_EXCEEDED"
  | .NOT_FOUND => "NOT_FOUND"
  | .ALREADY_EXISTS => "ALREADY_EXISTS"
  | .PERMISSION_DENIED => "PERMISSION_DENIED"
  | .RESOURCE_EXHAUSTED => "RESOURCE_EXHAUSTED"
  | .FAILED_PRECONDITION => "FAILED_PRECONDITION"
  | .ABORTED => "ABORTED"
  | .OUT_OF_RANGE => "OUT_OF_RANGE"
  | .UNIMPLEMENTED => "UNIMPLEMENTED"
  | .INTERNAL => "INTERNAL"
  | .UNAVAILABLE => "UNAVAILABLE"
  | .DATA_LOSS => "DATA_LOSS"
  | .UNAUTHENTICATED => "UNAUTHENTICATED"

/-- Outcome of the single `stub.Check(request, timeout=timeout)` call
(line 75): a response, a `grpc.RpcError` with a status code and details,
or any other exception raised by the runtime. -/
inductive CallOutcome where
  | response (r : HealthCheckResponse)
  | rpcError (code : StatusCode) (details : String)
  | otherError (msg : String)
deriving DecidableEq

/-- The environment: what the gRPC runtime does for a `Check` call against
a given target with a given request service name. -/
def Net : Type := String → String → CallOutcome

/-- Channel lifecycle events of a run of `check_health`. -/
inductive Event where
  | channelOpened (target : String) (use_tls : Bool)
  | channelClosed
deriving DecidableEq

/-- How a Python call terminates in this model: a return value, a raised
`HealthCheckError` (carrying `str(e)`), or any other raised `Exception`. -/
inductive PyResult (α : Type) where
  | ok (a : α)
  | healthCheckError (msg : String)
  | otherExc (msg : String)
deriving DecidableEq

/-- The observable behavior of one run of `check_health`: its termination,
the lines it printed to stdout, and its channel events in order. -/
structure CheckRun where
  result : PyResult Bool
  stdout : List String
  events : List Event
deriving DecidableEq

/-- The verbose preamble printed at lines 49-57. -/
def verbose_header (target service timeout : String) (use_tls : Bool) : List String :=
  ["🔍 Checking health of gRPC server at " ++ target,
   if service ≠ "" then "   Service: " ++ service
   else "   Service: <overall server health>",
   "   Timeout: " ++ timeout ++ "s",
   "   TLS: " ++ (if use_tls then "enabled" else "disabled"),
   ""]

/-- The `if`/`elif` classification of a `grpc.RpcError` into the message of
the raised `HealthCheckError` (lines 84-96). -/
def rpc_error_message (target service timeout : String)
    (code : StatusCode) (details : String) : String :=
  match code with
  | .UNIMPLEMENTED =>
      "Health check not implemented on the server. " ++
      "Make sure the server implements grpc.health.v1.Health service."
  | .DEADLINE_EXCEEDED => "Health check timed out after " ++ timeout ++ "s"
  | .UNAVAILABLE => "Cannot connect to " ++ target
  | .NOT_FOUND => "Service \x27" ++ service ++ "\x27 not found"
  | _ => "Health check failed: " ++ code.name ++ " - " ++ details

/-- The verbose line printed for the received status (lines 102-110). -/
def status_line (status : ServingStatus) : String :=
  match status with
  | .SERVING => "✅ Service is " ++ status.name
  | .NOT_SERVING => "❌ Service is " ++ status.name
  | .UNKNOWN => "⚠️  Service status is " ++ status.name
  | .SERVICE_UNKNOWN => "❓ Service status: " ++ status.name

/-- Shallow embedding of `check_health` (lines 26-115). The channel is
created before the `try` block and `channel.close()` runs in the `finally`
clause, so every branch of the `try` body — the normal return at line 112,
the `HealthCheckError` raised at lines 84-96, and any other exception from
the `Check` call — is followed by the close event. In Python the defaults
are `service=""`, `timeout=5.0`, `use_tls=False`, `verbose=False`. -/
def check_health (net : Net) (target service timeout : String)
    (use_tls verbose : Bool) : CheckRun :=
  let header := if verbose then verbose_header target service timeout use_tls else []
  let channel_events := [Event.channelOpened target use_tls, Event.channelClosed]
  match net target service with
  | .response r =>
      { result := .ok (decide (r.status = ServingStatus.SERVING))
        stdout := header ++ (if verbose then [status_line r.status] else [])
        events := channel_events }
  | .rpcError code details =>
      { result := .healthCheckError (rpc_error_message target service timeout code details)
        stdout := header ++
          (if verbose then
            ["❌ gRPC Error: " ++ code.name, "   Details: " ++ details]
           else [])
        events := channel_events }
  | .otherError msg =>
      { result := .otherExc msg
        stdout := header
        events := channel_events }

/-- The flags of one invocation before parsing: which options were supplied
on the command line and with which (already type-converted) values.
`--timeout` is carried as the decimal rendering of its float value. -/
structure CliInput where
  target : Option String
  host : Option String
  port : Option Int
  service : Option String
  timeout : Option String
  tls : Bool
  verbose : Bool
deriving DecidableEq

/-- The argparse namespace produced by a successful `parser.parse_args()`
for the parser configured at lines 120-185: `--service` defaults to `""`,
`--timeout` to `5.0`, `--tls` and `--verbose` to `False`. -/
structure Args where
  target : Option String
  host : Option String
  port : Option Int
  service : String
  timeout : String
  tls : Bool
  verbose : Bool
deriving DecidableEq

/-- `parser.parse_args()` for the configuration at lines 120-185. `--target`
and `--host` form a mutually exclusive group with `required=True`
(lines 143-151), so argparse rejects an invocation supplying both, and one
supplying neither, before `main` resumes; on such rejections argparse
prints its usage text and the error to stderr and exits with status 2
(`parser.error` semantics). Defaults are filled as configured. -/
def parse_args (input : CliInput) : Except String Args :=
  match input.target, input.host with
  | some _, some _ => .error "argument --host: not allowed with argument --target"
  | none, none => .error "one of the arguments --target --host is required"
  | t, h =>
      .ok { target := t, host := h, port := input.port,
            service := input.service.getD "",
            timeout := input.timeout.getD "5.0",
            tls := input.tls, verbose := input.verbose }

/-- Python's rendering of an optional string inside an f-string: `None`
prints as the text `None`. -/
def py_str_opt (o : Option String) : String :=
  match o with
  | some s => s
  | none => "None"

/-- Python's rendering of an optional int inside an f-string. -/
def py_int_opt (o : Option Int) : String :=
  match o with
  | some i => toString i
  | none => "None"

/-- Python truthiness of an `Optional[str]`: `None` and `""` are falsy. -/
def py_truthy (o : Option String) : Bool :=
  match o with
  | some s => s ≠ ""
  | none => false

/-- Target-address assembly at lines 188-193. `if args.target:` is Python
truthiness, so a missing `--target` and an empty `--target` string both
fall through to the host/port branch; `parser.error` at line 192 again
exits with status 2. -/
def build_target (args : Args) : Except String String :=
  if py_truthy args.target then .ok (py_str_opt args.target)
  else
    match args.port with
    | none => .error "--port is required when using --host"
    | some p => .ok (py_str_opt args.host ++ ":" ++ toString p)

/-- The observable behavior of one run of `main`: process exit code,
stdout and stderr lines, channel events, and how many `Check` calls were
issued. -/
structure MainRun where
  exitCode : Nat
  stdout : List String
  stderr : List String
  events : List Event
  networkCalls : Nat
deriving DecidableEq

/-- A run terminated by `parser.error`: usage and the message go to
stderr (modelled by the message line), the process exits with status 2,
and no channel was ever created. -/
def arg_error_run (msg : String) : MainRun :=
  { exitCode := 2, stdout := [], stderr := [msg], events := [], networkCalls := 0 }

/-- The `try`/`except` block of `main` (lines 196-222): one call to
`check_health`, then the result mapping — `True` prints the healthy line
(unless verbose already reported) and exits 0; `False` prints the
not-healthy line and exits 1; a `HealthCheckError` is caught and reported
to stderr with exit 1; any other `Exception` is caught and reported to
stderr (with a traceback when verbose) with exit 1. -/
def run_check (net : Net) (args : Args) (target : String) : MainRun :=
  let run := check_health net target args.service args.timeout args.tls args.verbose
  match run.result with
  | .ok true =>
      { exitCode := 0
        stdout := run.stdout ++ (if args.verbose then [] else ["✅ Service is healthy"])
        stderr := []
        events := run.events
        networkCalls := 1 }
  | .ok false =>
      { exitCode := 1
        stdout := run.stdout ++ (if args.verbose then [] else ["❌ Service is not healthy"])
        stderr := []
        events := run.events
        networkCalls := 1 }
  | .healthCheckError msg =>
      { exitCode := 1
        stdout := run.stdout
        stderr := ["❌ Health check failed: " ++ msg]
        events := run.events
        networkCalls := 1 }
  | .otherExc msg =>
      { exitCode := 1
        stdout := run.stdout
        stderr := ["❌ Unexpected error: " ++ msg] ++
          (if args.verbose then ["<traceback>"] else [])
        events := run.events
        networkCalls := 1 }

/-- Shallow embedding of `main` (lines 118-222): parse the flags, assemble
the target address, run the health check once, map the outcome. -/
def main (net : Net) (input : CliInput) : MainRun :=
  match parse_args input with
  | .error e => arg_error_run e
  | .ok args =>
      match build_target args with
      | .error e => arg_error_run e
      | .ok target => run_check net args target

/-! ## Concrete environments and invocations used for witnesses -/

/-- An environment in which every `Check` call answers `SERVING`. -/
def net_serving : Net := fun _ _ => .response { status := .SERVING }

/-- An environment in which every `Check` call answers `NOT_SERVING`. -/
def net_not_serving : Net := fun _ _ => .response { status := .NOT_SERVING }

/-- An environment in which every `Check` call answers `SERVICE_UNKNOWN`. -/
def net_service_unknown : Net := fun _ _ => .response { status := .SERVICE_UNKNOWN }

/-- An environment in which every `Check` call fails with `UNAVAILABLE`. -/
def net_unavailable : Net := fun _ _ => .rpcError .UNAVAILABLE "connection refused"

/-- The mock server of the spec: `SERVING` for the empty service name,
`NOT_SERVING` for service `X`, and `SERVICE_UNKNOWN` for anything else, so
an exit code of 0 is only reachable by sending the empty service name. -/
def mock_server : Net := fun _ service =>
  if service = "" then .response { status := .SERVING }
  else if service = "X" then .response { status := .NOT_SERVING }
  else .response { status := .SERVICE_UNKNOWN }

/-- An environment in which the `Check` call raises a non-`RpcError`
exception. -/
def net_crash : Net := fun _ _ => .otherError "boom"

/-- `grpc-healthcheck --target localhost:50051`, all other flags omitted. -/
def input_target : CliInput :=
  { target := some "localhost:50051", host := none, port := none,
    service := none, timeout := none, tls := false, verbose := false }

/-- An invocation supplying both `--target` and `--host`. -/
def input_both : CliInput := { input_target with host := some "localhost" }

/-- `grpc-healthcheck --target localhost:50051 --service X`. -/
def input_service_x : CliInput := { input_target with service := some "X" }

/-- The argparse namespace produced for `input_target`. -/
def args_target : Args :=
  { target := some "localhost:50051", host := none, port := none,
    service := "", timeout := "5.0", tls := false, verbose := false }

/-- The first character of a printed line. In the tool's output `✅` marks
success and `❌`, `⚠` (first code point of the warning sign) and `❓` mark
a non-serving or failed outcome. -/
def first_char (s : String) : Option Char := s.data.head?

/-! ## Helper lemmas -/

/-- The result of `check_health` does not depend on `verbose`. -/
theorem check_health_result_ignores_verbose (net : Net)
    (target service timeout : String) (use_tls : Bool) (v w : Bool) :
    (check_health net target service timeout use_tls v).result =
      (check_health net target service timeout use_tls w).result := by
  unfold check_health
  cases net target service <;> rfl

/-- The exit code produced by `run_check` is a function of the result of
the underlying `check_health` run alone. -/
theorem run_check_exitCode (net : Net) (args : Args) (target : String) :
    (run_check net args target).exitCode =
      match (check_health net target args.service args.timeout args.tls
          args.verbose).result with
      | .ok true => 0
      | .ok false => 1
      | .healthCheckError _ => 1
      | .otherExc _ => 1 := by
  unfold run_check
  cases h : (check_health net target args.service args.timeout args.tls
      args.verbose).result with
  | ok b => cases b <;> simp [h]
  | healthCheckError m => simp [h]
  | otherExc m => simp [h]

/-- `run_check` maps equal check results to equal exit codes, so the exit
code does not depend on `verbose`. -/
theorem run_check_exitCode_ignores_verbose (net : Net) (args : Args)
    (target : String) (v w : Bool) :
    (run_check net { args with verbose := v } target).exitCode =
      (run_check net { args with verbose := w } target).exitCode := by
  rw [run_check_exitCode, run_check_exitCode]
  rw [check_health_result_ignores_verbose net target args.service args.timeout
    args.tls v w]

/-- Toggling `verbose` commutes with argument parsing. -/
theorem parse_args_verbose (input : CliInput) (v : Bool) :
    parse_args { input with verbose := v } =
      (parse_args input).map (fun a => { a with verbose := v }) := by
  unfold parse_args
  cases ht : input.target <;> cases hh : input.host <;> simp [ht, hh, Except.map]

/-- `run_check` performs exactly one `Check` call. -/
theorem run_check_networkCalls (net : Net) (args : Args) (target : String) :
    (run_check net args target).networkCalls = 1 := by
  unfold run_check
  cases h : (check_health net target args.service args.timeout args.tls
      args.verbose).result with
  | ok b => cases b <;> simp [h]
  | healthCheckError m => simp [h]
  | otherExc m => simp [h]

/-! ## Claims -/

/-- C1: in every run in which the `Check` call returns a response with
status `SERVING` — on an invocation whose flags parse and resolve to the
probed target — `check_health` returns `True`, the tool prints a line
starting with the success indicator `✅` (from `main` when quiet, from the
verbose report otherwise), and the process exits with code 0. -/
theorem c1_serving_exits_zero (net : Net) (input : CliInput) (args : Args)
    (t : String)
    (hp : parse_args input = .ok args) (hb : build_target args = .ok t)
    (hnet : net t args.service = .response { status := .SERVING }) :
    (check_health net t args.service args.timeout args.tls args.verbose).result =
      .ok true ∧
    (main net input).exitCode = 0 ∧
    ∃ line ∈ (main net input).stdout, first_char line = some '✅' := by
  have hres : (check_health net t args.service args.timeout args.tls
      args.verbose).result = .ok true := by
    simp [check_health, hnet]
  have hmain : main net input = run_check net args t := by
    unfold main
    rw [hp]
    dsimp only
    rw [hb]
  refine ⟨hres, ?_, ?_⟩
  · rw [hmain, run_check_exitCode, hres]
  · rw [hmain]
    cases hv : args.verbose
    · refine ⟨"✅ Service is healthy", ?_, by decide⟩
      simp [run_check, check_health, hnet, hv]
    · refine ⟨status_line .SERVING, ?_, by decide⟩
      simp [run_check, check_health, hnet, hv]

/-- C1 witness: the theorem at a concrete invocation and environment. -/
theorem c1_serving_exits_zero_witness :
    parse_args input_target = .ok args_target ∧
    build_target args_target = .ok "localhost:50051" ∧
    (main net_serving input_target).exitCode = 0 := by
  have h := c1_serving_exits_zero net_serving input_target args_target
    "localhost:50051" rfl rfl rfl
  exact ⟨rfl, rfl, h.2.1⟩

/-- C2: in every run in which the `Check` call returns a response whose
status is `NOT_SERVING`, `UNKNOWN` or `SERVICE_UNKNOWN` — on an invocation
whose flags parse and resolve to the probed target — `check_health`
returns `False`, the tool prints a line starting with a failure indicator
(`❌`, `⚠` or `❓`), and the process exits with code 1. -/
theorem c2_not_serving_exits_one (net : Net) (input : CliInput) (args : Args)
    (t : String) (status : ServingStatus)
    (hp : parse_args input = .ok args) (hb : build_target args = .ok t)
    (hnet : net t args.service = .response { status := status })
    (hstatus : status = .NOT_SERVING ∨ status = .UNKNOWN ∨
      status = .SERVICE_UNKNOWN) :
    (check_health net t args.service args.timeout args.tls args.verbose).result =
      .ok false ∧
    (main net input).exitCode = 1 ∧
    ∃ line ∈ (main net input).stdout,
      first_char line = some '❌' ∨ first_char line = some '⚠' ∨
        first_char line = some '❓' := by
  have hres : (check_health net t args.service args.timeout args.tls
      args.verbose).result = .ok false := by
    rcases hstatus with h | h | h <;> subst h <;> simp [check_health, hnet]
  have hmain : main net input = run_check net args t := by
    unfold main
    rw [hp]
    dsimp only
    rw [hb]
  refine ⟨hres, ?_, ?_⟩
  · rw [hmain, run_check_exitCode, hres]
  · rw [hmain]
    cases hv : args.verbose
    · refine ⟨"❌ Service is not healthy", ?_, by decide⟩
      rcases hstatus with h | h | h <;> subst h <;>
        simp [run_check, check_health, hnet, hv]
    · refine ⟨status_line status, ?_, ?_⟩
      · rcases hstatus with h | h | h <;> subst h <;>
          simp [run_check, check_health, hnet, hv]
      · rcases hstatus with h | h | h <;> subst h <;> decide

/-- C2 witness: the theorem at a concrete invocation and environment. -/
theorem c2_not_serving_exits_one_witness :
    (main net_not_serving input_target).exitCode = 1 ∧
    (check_health net_not_serving "localhost:50051" "" "5.0" false false).result =
      .ok false := by
  have h := c2_not_serving_exits_one net_not_serving input_target args_target
    "localhost:50051" .NOT_SERVING rfl rfl rfl (Or.inl rfl)
  exact ⟨h.2.1, h.1⟩

/-- C3: for every `grpc.RpcError` raised during the single `Check` call,
`check_health` raises a `HealthCheckError` whose message is classified by
the gRPC status code — `UNIMPLEMENTED` as not implemented,
`DEADLINE_EXCEEDED` as timed out carrying the timeout value, `UNAVAILABLE`
as cannot connect (unreachable), `NOT_FOUND` as service not found, and any
other code as a generic failure carrying the code name and details — and
`main` then exits with code 1. -/
theorem c3_rpc_error_classified (net : Net) (input : CliInput) (args : Args)
    (t : String) (code : StatusCode) (details : String)
    (hp : parse_args input = .ok args) (hb : build_target args = .ok t)
    (hnet : net t args.service = .rpcError code details) :
    (check_health net t args.service args.timeout args.tls args.verbose).result =
      .healthCheckError (rpc_error_message t args.service args.timeout code details) ∧
    (main net input).exitCode = 1 ∧
    (code = .UNIMPLEMENTED →
      rpc_error_message t args.service args.timeout code details =
        "Health check not implemented on the server. Make sure the server implements grpc.health.v1.Health service.") ∧
    (code = .DEADLINE_EXCEEDED →
      rpc_error_message t args.service args.timeout code details =
        "Health check timed out after " ++ args.timeout ++ "s") ∧
    (code = .UNAVAILABLE →
      rpc_error_message t args.service args.timeout code details =
        "Cannot connect to " ++ t) ∧
    (code = .NOT_FOUND →
      rpc_error_message t args.service args.timeout code details =
        "Service \x27" ++ args.service ++ "\x27 not found") ∧
    (code ≠ .UNIMPLEMENTED → code ≠ .DEADLINE_EXCEEDED → code ≠ .UNAVAILABLE →
      code ≠ .NOT_FOUND →
      rpc_error_message t args.service args.timeout code details =
        "Health check failed: " ++ code.name ++ " - " ++ details) := by
  have hres : (check_health net t args.service args.timeout args.tls
      args.verbose).result =
      .healthCheckError (rpc_error_message t args.service args.timeout code details) := by
    simp [check_health, hnet]
  have hmain : main net input = run_check net args t := by
    unfold main
    rw [hp]
    dsimp only
    rw [hb]
  refine ⟨hres, ?_, ?_, ?_, ?_, ?_, ?_⟩
  · rw [hmain, run_check_exitCode, hres]
  · intro h
    subst h
    rfl
  · intro h
    subst h
    rfl
  · intro h
    subst h
    rfl
  · intro h
    subst h
    rfl
  · intro h1 h2 h3 h4
    cases code
    all_goals first
      | exact absurd rfl h1
      | exact absurd rfl h2
      | exact absurd rfl h3
      | exact absurd rfl h4
      | rfl

/-- C3 witness: a concrete `UNAVAILABLE` failure is classified as
cannot-connect and the process exits 1. -/
theorem c3_rpc_error_classified_witness :
    (main net_unavailable input_target).exitCode = 1 ∧
    (check_health net_unavailable "localhost:50051" "" "5.0" false false).result =
      .healthCheckError "Cannot connect to localhost:50051" := by
  have h := c3_rpc_error_classified net_unavailable input_target args_target
    "localhost:50051" .UNAVAILABLE "connection refused" rfl rfl rfl
  exact ⟨h.2.1, by decide⟩

/-- C4 counterexample: an invocation supplying both `--target` and
`--host` is an argument error, and argparse terminates the process with
exit status 2, not 1 as the claim states. -/
theorem c4_counterexample :
    (main net_serving input_both).exitCode = 2 ∧
    (main net_serving input_both).exitCode ≠ 1 := by
  decide

/-- C4 amended: every error kind is reported to the user and is terminal
for the single run — the health-check call is issued at most once and
never retried. Health-check errors (classified `HealthCheckError`s and
unexpected exceptions) map to process exit code 1; argument errors from a
bad CLI flag combination are reported before any network call and map to
exit code 2, argparse's error exit status. -/
theorem c4_errors_terminal (net : Net) (input : CliInput) :
    (main net input).networkCalls ≤ 1 ∧
    (∀ e, parse_args input = .error e →
      (main net input).exitCode = 2 ∧ (main net input).networkCalls = 0 ∧
      (main net input).stderr ≠ []) ∧
    (∀ args e, parse_args input = .ok args → build_target args = .error e →
      (main net input).exitCode = 2 ∧ (main net input).networkCalls = 0 ∧
      (main net input).stderr ≠ []) ∧
    (∀ args t msg, parse_args input = .ok args → build_target args = .ok t →
      ((check_health net t args.service args.timeout args.tls args.verbose).result =
          .healthCheckError msg ∨
        (check_health net t args.service args.timeout args.tls args.verbose).result =
          .otherExc msg) →
      (main net input).exitCode = 1 ∧ (main net input).stderr ≠ []) := by
  refine ⟨?_, ?_, ?_, ?_⟩
  · unfold main
    cases hp : parse_args input with
    | error e => simp [arg_error_run]
    | ok args =>
      dsimp only
      cases hb : build_target args with
      | error e => simp [arg_error_run]
      | ok t => simp [run_check_networkCalls]
  · intro e hp
    have hmain : main net input = arg_error_run e := by
      unfold main
      rw [hp]
    rw [hmain]
    exact ⟨rfl, rfl, by simp [arg_error_run]⟩
  · intro args e hp hb
    have hmain : main net input = arg_error_run e := by
      unfold main
      rw [hp]
      dsimp only
      rw [hb]
    rw [hmain]
    exact ⟨rfl, rfl, by simp [arg_error_run]⟩
  · intro args t msg hp hb hr
    have hmain : main net input = run_check net args t := by
      unfold main
      rw [hp]
      dsimp only
      rw [hb]
    rw [hmain]
    rcases hr with hr | hr
    · exact ⟨by rw [run_check_exitCode, hr], by simp [run_check, hr]⟩
    · exact ⟨by rw [run_check_exitCode, hr], by simp [run_check, hr]⟩

/-- C4 witness: the amended theorem at a concrete argument error (exit 2,
no network call) and a concrete unavailable backend (exit 1). -/
theorem c4_errors_terminal_witness :
    (main net_serving input_both).networkCalls = 0 ∧
    (main net_serving input_both).exitCode = 2 ∧
    (main net_unavailable input_target).exitCode = 1 := by
  have h1 := (c4_errors_terminal net_serving input_both).2.1
    "argument --host: not allowed with argument --target" rfl
  have h2 := (c4_errors_terminal net_unavailable input_target).2.2.2
    args_target "localhost:50051" "Cannot connect to localhost:50051" rfl rfl
    (Or.inl (by decide))
  exact ⟨h1.2.1, h1.1, h2.1⟩

/-- C5: every invocation supplying both a combined `--target` address and
the `--host` flag is rejected by the mutually exclusive argument group as
an argument error before any network call: no `Check` call is issued, no
channel event occurs, the error is reported and the process exits with
argparse's error status. -/
theorem c5_both_target_and_host_rejected (net : Net) (input : CliInput)
    (t h : String) (ht : input.target = some t) (hh : input.host = some h) :
    (main net input).networkCalls = 0 ∧
    (main net input).events = [] ∧
    (main net input).exitCode = 2 ∧
    (main net input).stderr ≠ [] := by
  have hmain : main net input =
      arg_error_run "argument --host: not allowed with argument --target" := by
    unfold main parse_args
    rw [ht, hh]
  rw [hmain]
  exact ⟨rfl, rfl, rfl, by simp [arg_error_run]⟩

/-- C5 witness: the theorem at a concrete invocation. -/
theorem c5_both_target_and_host_rejected_witness :
    (main net_serving input_both).networkCalls = 0 ∧
    (main net_serving input_both).events = [] ∧
    (main net_serving input_both).exitCode = 2 := by
  have h := c5_both_target_and_host_rejected net_serving input_both
    "localhost:50051" "localhost" rfl rfl
  exact ⟨h.1, h.2.1, h.2.2.1⟩

/-- C8: an omitted `--service` flag parses to the empty service name,
which denotes whole-server health; against a server reporting `SERVING`
for service `""`, `NOT_SERVING` for service `X` and `SERVICE_UNKNOWN` for
everything else, invoking without `--service` exits 0 (so the empty name
was sent) and invoking with `--service X` exits 1. -/
theorem c8_empty_service_whole_server :
    (∃ args, parse_args input_target = .ok args ∧ args.service = "") ∧
    (main mock_server input_target).exitCode = 0 ∧
    (main mock_server input_service_x).exitCode = 1 := by
  exact ⟨⟨args_target, rfl, rfl⟩, by decide, by decide⟩

/-- C10: `main` never propagates an exception from the health check: on
every invocation that reaches `check_health`, a raised `HealthCheckError`
is caught, reported on stderr and mapped to exit code 1, and any other
exception is likewise caught, reported on stderr and mapped to exit
code 1. -/
theorem c10_main_catches_exceptions (net : Net) (input : CliInput)
    (args : Args) (t msg : String)
    (hp : parse_args input = .ok args) (hb : build_target args = .ok t) :
    ((check_health net t args.service args.timeout args.tls args.verbose).result =
        .healthCheckError msg →
      (main net input).exitCode = 1 ∧
      (main net input).stderr = ["❌ Health check failed: " ++ msg]) ∧
    ((check_health net t args.service args.timeout args.tls args.verbose).result =
        .otherExc msg →
      (main net input).exitCode = 1 ∧
      ("❌ Unexpected error: " ++ msg) ∈ (main net input).stderr) := by
  have hmain : main net input = run_check net args t := by
    unfold main
    rw [hp]
    dsimp only
    rw [hb]
  constructor
  · intro hr
    rw [hmain]
    exact ⟨by rw [run_check_exitCode, hr], by simp [run_check, hr]⟩
  · intro hr
    rw [hmain]
    exact ⟨by rw [run_check_exitCode, hr], by simp [run_check, hr]⟩

/-- C10 witness: a concrete non-`HealthCheckError` exception and a
concrete `HealthCheckError` are both caught and mapped to exit 1. -/
theorem c10_main_catches_exceptions_witness :
    (main net_crash input_target).exitCode = 1 ∧
    (main net_unavailable input_target).exitCode = 1 := by
  have h1 := (c10_main_catches_exceptions net_crash input_target args_target
    "localhost:50051" "boom" rfl rfl).2 rfl
  have h2 := (c10_main_catches_exceptions net_unavailable input_target
    args_target "localhost:50051" "Cannot connect to localhost:50051" rfl rfl).1
    (by decide)
  exact ⟨h1.1, h2.1⟩

/-- C6: `check_health` closes the channel it opened on every exit path —
the normal return, the `HealthCheckError` raised from the RPC-error
branch, and any other exception raised after the channel is created — so
for every environment (every possible outcome of the `Check` call) the
event trace is exactly: channel opened, then channel closed. -/
theorem c6_channel_always_closed (net : Net) (target service timeout : String)
    (use_tls verbose : Bool) :
    (check_health net target service timeout use_tls verbose).events =
      [Event.channelOpened target use_tls, Event.channelClosed] := by
  unfold check_health
  cases net target service <;> rfl

/-- C7 counterexample: two successful runs whose responses carry distinct
serving-status enum values (`NOT_SERVING` and `SERVICE_UNKNOWN`) produce
the identical return value `False`, so the value `check_health` returns
to its caller is not the serving-status enum value of the response. -/
theorem c7_counterexample :
    (check_health net_not_serving "localhost:50051" "" "5.0" false false).result =
      (check_health net_service_unknown "localhost:50051" "" "5.0" false false).result ∧
    (check_health net_not_serving "localhost:50051" "" "5.0" false false).result =
      .ok false ∧
    ServingStatus.NOT_SERVING ≠ ServingStatus.SERVICE_UNKNOWN := by
  decide

/-- C7 amended: on success (a response is received within the timeout),
`check_health` returns a boolean to its caller — `True` exactly when the
response's serving-status is `SERVING`, `False` for every other status —
rather than the status enum value itself. -/
theorem c7_success_returns_serving_bool (net : Net)
    (target service timeout : String) (use_tls verbose : Bool)
    (status : ServingStatus)
    (hnet : net target service = .response { status := status }) :
    ((check_health net target service timeout use_tls verbose).result = .ok true ↔
      status = ServingStatus.SERVING) ∧
    ((check_health net target service timeout use_tls verbose).result = .ok false ↔
      status ≠ ServingStatus.SERVING) := by
  unfold check_health
  rw [hnet]
  cases status <;> simp

/-- C7 witness: the amended theorem at a concrete run receiving `SERVING`. -/
theorem c7_success_returns_serving_bool_witness :
    (check_health net_serving "localhost:50051" "" "5.0" false false).result = .ok true := by
  exact (c7_success_returns_serving_bool net_serving "localhost:50051" "" "5.0"
    false false .SERVING rfl).1.mpr rfl

/-- C9: for identical target, service, timeout and use_tls arguments and
an identical environment, the value returned by `check_health` is the same
whether `verbose` is `True` or `False`; consequently two invocations of
`main` differing only in the verbose flag produce the same process exit
code. The flag affects only what is printed. -/
theorem c9_verbose_noninterference (net : Net) (input : CliInput)
    (target service timeout : String) (use_tls : Bool) :
    (check_health net target service timeout use_tls true).result =
      (check_health net target service timeout use_tls false).result ∧
    (main net { input with verbose := true }).exitCode =
      (main net { input with verbose := false }).exitCode := by
  refine ⟨check_health_result_ignores_verbose net target service timeout use_tls
    true false, ?_⟩
  unfold main
  rw [parse_args_verbose input true, parse_args_verbose input false]
  cases hp : parse_args input with
  | error e => simp [Except.map]
  | ok args =>
    simp only [Except.map]
    have hbt : build_target { args with verbose := true } = build_target args := rfl
    have hbf : build_target { args with verbose := false } = build_target args := rfl
    rw [hbt, hbf]
    cases hb : build_target args with
    | error e => rfl
    | ok t => exact run_check_exitCode_ignores_verbose net args t true false

end GrpcHealthcheck
